import Mathlib

/-!
Verification of the delivery-route-optimizer service: a shallow embedding of
the traffic estimator, cost matrix builder, constraint model builder, solution
decoder, coordinate optimizer and job orchestrator, with theorems checking the
natural-language specification against the code.

Conventions of the embedding:
  * Python numbers are modelled as rationals, Python ints as integers.
  * Python truncation int(x) is pyInt, floor division // is Int.fdiv.
  * Network calls (traffic service, Haversine distance that goes through
    transcendental functions) are oracle parameters of the definitions; the
    surrounding arithmetic is translated literally from the source.
-/

namespace RouteOptimizer

/-- Python int() applied to a rational: truncation toward zero. -/
def pyInt (q : ℚ) : ℤ := if 0 ≤ q then ⌊q⌋ else -⌊-q⌋

/-- The JSON object returned by the traffic service for GET /traffic/flow
(fields as read by traffic_client.py). -/
structure TrafficData where
  current_speed_kmph : ℚ
  free_flow_speed_kmph : ℚ
  congestion_level : String
  confidence_level : ℚ
deriving DecidableEq

/-- The fixed default returned by get_traffic_flow when the request raises a
RequestException (traffic_client.py lines 29-34). -/
def defaultTrafficData : TrafficData :=
  { current_speed_kmph := 50
    free_flow_speed_kmph := 60
    congestion_level := "LOW"
    confidence_level := 1/2 }

/-- Outcome of one HTTP attempt against the traffic service. -/
inductive AttemptResult
  | ok (d : TrafficData)
  | transportError (msg : String)
deriving DecidableEq

def AttemptResult.isTransportError : AttemptResult → Bool
  | .ok _ => false
  | .transportError _ => true

/-- The body of get_traffic_flow (the function the tenacity decorator wraps,
traffic_client.py lines 16-34): it performs the request and CATCHES any
RequestException itself, returning the default instead of raising. The body
therefore never raises on a transport error. -/
def getTrafficFlowBody (r : AttemptResult) : Except String TrafficData :=
  match r with
  | .ok d => Except.ok d
  | .transportError _ => Except.ok defaultTrafficData

/-- Semantics of the tenacity decorator retry(stop=stop_after_attempt(n)):
call the wrapped body; if it raises and attempts remain, retry on the next
attempt; once n attempts are exhausted, re-raise. Returns the result together
with the number of attempts actually made. -/
def retryStopAfterAttempt {A : Type} (body : ℕ → Except String A) :
    ℕ → ℕ → Except String A × ℕ
  | _, 0 => (Except.error "RetryError", 0)
  | i, 1 => (body i, 1)
  | i, n + 2 =>
    match body i with
    | Except.ok a => (Except.ok a, 1)
    | Except.error _ =>
      let r := retryStopAfterAttempt body (i + 1) (n + 1)
      (r.1, r.2 + 1)

/-- get_traffic_flow as deployed: the tenacity decorator with
stop_after_attempt(3) around the self-catching body, driven by the stream of
per-attempt results of the traffic service. -/
def get_traffic_flow (attempts : ℕ → AttemptResult) : Except String TrafficData × ℕ :=
  retryStopAfterAttempt (fun i => getTrafficFlowBody (attempts i)) 0 3

/-- An attempt stream on which the traffic service is unreachable forever. -/
def allTransportFailures : ℕ → AttemptResult :=
  fun _ => AttemptResult.transportError "connection refused"

/-- The congestion delay multiplier dictionary of calculate_travel_time
(traffic_client.py lines 72-77), with its .get default of 1.0. -/
def delayMultiplier (level : String) : ℚ :=
  if level = "LOW" then 1
  else if level = "MODERATE" then 6/5
  else if level = "HIGH" then 3/2
  else if level = "SEVERE" then 2
  else 1

/-- calculate_travel_time (traffic_client.py lines 54-79). The traffic data
returned by get_traffic_flow at the start point and the Haversine
distance between the two points are passed in as parameters; the arithmetic
follows the source line by line. -/
def calculate_travel_time (traffic_data : TrafficData) (distance_km : ℚ) : ℤ :=
  let speed_kmph := traffic_data.current_speed_kmph
  let speed_kmph := if speed_kmph = 0 then 30 else speed_kmph
  let travel_time_hours := distance_km / speed_kmph
  let travel_time_minutes := pyInt (travel_time_hours * 60)
  max 1 (pyInt ((travel_time_minutes : ℚ) * delayMultiplier traffic_data.congestion_level))

/-- The travel-time formula as claim C3 words it: congestion multiplier times
the base minutes distance_km / max(reported_speed, 30) * 60, with the final
result floored at 1 minute. -/
def claimC3TravelTime (traffic_data : TrafficData) (distance_km : ℚ) : ℤ :=
  max 1 (pyInt (delayMultiplier traffic_data.congestion_level *
    (distance_km / max traffic_data.current_speed_kmph 30 * 60)))

/-- The amended formula: base minutes are truncated from
distance / speed * 60 where the 30 km/h fallback replaces the reported speed
only when that speed is exactly zero; the congestion multiplier
(LOW 1.0, MODERATE 1.2, HIGH 1.5, SEVERE 2.0) is then applied, the product
truncated, and the result floored at 1 minute. -/
def amendedC3TravelTime (traffic_data : TrafficData) (distance_km : ℚ) : ℤ :=
  let speed := if traffic_data.current_speed_kmph = 0 then 30
    else traffic_data.current_speed_kmph
  let mult : ℚ :=
    if traffic_data.congestion_level = "LOW" then 1
    else if traffic_data.congestion_level = "MODERATE" then 6/5
    else if traffic_data.congestion_level = "HIGH" then 3/2
    else if traffic_data.congestion_level = "SEVERE" then 2
    else 1
  max 1 (pyInt ((pyInt (distance_km / speed * 60) : ℚ) * mult))

/-- C2 counterexample: with the traffic service unreachable on every attempt,
get_traffic_flow makes exactly ONE attempt — not up to 3 — before returning
the fixed default: the exception handler inside the wrapped function catches
the transport error, so the retry decorator never observes a failure and
never retries. -/
theorem get_traffic_flow_no_retry_counterexample :
    get_traffic_flow allTransportFailures = (Except.ok defaultTrafficData, 1) ∧
    (get_traffic_flow allTransportFailures).2 ≠ 3 := by
  constructor
  · rfl
  · have h1 : (get_traffic_flow allTransportFailures).2 = 1 := rfl
    omega

/-- C2 (amended): whenever the first attempt to contact the traffic service
fails with a transport error, get_traffic_flow returns the fixed default
{current_speed_kmph: 50, free_flow_speed_kmph: 60, congestion_level: LOW,
confidence_level: 0.5} immediately, after a single attempt and without
retrying, and without raising any exception to the caller. -/
theorem get_traffic_flow_default_on_first_failure (attempts : ℕ → AttemptResult)
    (h : (attempts 0).isTransportError = true) :
    get_traffic_flow attempts = (Except.ok defaultTrafficData, 1) := by
  unfold get_traffic_flow retryStopAfterAttempt
  cases ha : attempts 0 with
  | ok d => rw [ha] at h; simp [AttemptResult.isTransportError] at h
  | transportError m => simp [ha, getTrafficFlowBody]

/-- C2 witness: the amended theorem applied to the always-failing stream. -/
theorem get_traffic_flow_default_on_first_failure_witness :
    get_traffic_flow allTransportFailures = (Except.ok defaultTrafficData, 1) :=
  get_traffic_flow_default_on_first_failure allTransportFailures (by decide)

/-- C3 counterexample: with a reported speed of 10 km/h (below 30, not equal
to 0) and a 10 km leg at LOW congestion, the code divides by the reported
speed 10 and returns 60 minutes, while the claim's formula
distance / max(speed, 30) * 60 would give 20 minutes: the 30 km/h fallback
does NOT apply whenever the reported speed is below 30. -/
theorem calculate_travel_time_counterexample :
    calculate_travel_time
      { current_speed_kmph := 10, free_flow_speed_kmph := 60,
        congestion_level := "LOW", confidence_level := 1/2 } 10 = 60 ∧
    claimC3TravelTime
      { current_speed_kmph := 10, free_flow_speed_kmph := 60,
        congestion_level := "LOW", confidence_level := 1/2 } 10 = 20 ∧
    (60 : ℤ) ≠ 20 := by
  refine ⟨?_, ?_, by norm_num⟩
  · simp only [calculate_travel_time, delayMultiplier]
    norm_num [pyInt]
  · simp only [claimC3TravelTime, delayMultiplier]
    norm_num [pyInt]

/-- C3 (amended): travel_time_minutes equals the result of truncating
distance_km / speed * 60 to whole minutes, multiplying by the congestion
multiplier (LOW 1.0, MODERATE 1.2, HIGH 1.5, SEVERE 2.0), truncating again,
and flooring at 1 minute — where speed is the reported speed except that the
30 km/h fallback replaces it only when the reported speed is exactly 0. -/
theorem calculate_travel_time_amended (traffic_data : TrafficData)
    (distance_km : ℚ) :
    calculate_travel_time traffic_data distance_km =
      amendedC3TravelTime traffic_data distance_km := rfl

/-- A location handed to the VRP solver (schemas/optimization.py LocationPoint). -/
structure LocationPoint where
  order_id : Option String
  latitude : ℚ
  longitude : ℚ
  service_time_minutes : ℤ
  load_kg : ℚ
deriving DecidableEq

instance : Inhabited LocationPoint := ⟨⟨none, 0, 0, 0, 0⟩⟩

/-- The solver constraints (schemas/optimization.py OptimizationConstraints),
with the pydantic defaults. -/
structure OptimizationConstraints where
  max_stops_per_route : ℕ := 10
  max_route_duration_minutes : ℤ := 480
  max_vehicles : ℕ := 1
  vehicle_capacity_kg : ℚ := 500
  optimization_criteria : String := "MINIMIZE_DISTANCE"
deriving DecidableEq

/-- One entry of the cost matrix built by _create_distance_matrix
(vrp_solver.py lines 110-129). The traffic data get_traffic_flow yields at
location i, the Haversine distance and the euclidean-approximation distance
are oracle parameters. -/
def matrixEntry (use_traffic : Bool) (trafficAt : ℕ → TrafficData)
    (distKm euclidKm : ℕ → ℕ → ℚ) (i j : ℕ) : ℤ :=
  if i = j then 0
  else if use_traffic then
    calculate_travel_time (trafficAt i) (distKm i j) * 60
  else
    max 60 (pyInt (euclidKm i j / 50 * 3600))

/-- _create_distance_matrix (vrp_solver.py lines 105-131): the n by n matrix
of integer edge costs in seconds. -/
def create_distance_matrix (locations : List LocationPoint) (use_traffic : Bool)
    (trafficAt : ℕ → TrafficData) (distKm euclidKm : ℕ → ℕ → ℚ) :
    List (List ℤ) :=
  (List.range locations.length).map fun i =>
    (List.range locations.length).map fun j =>
      matrixEntry use_traffic trafficAt distKm euclidKm i j

/-- The distance/time dimension solve_vrp adds to the routing model
(vrp_solver.py lines 53-65): slack, per-vehicle upper bound, and whether the
cumulative variable starts at zero. -/
structure DimensionSpec where
  slack : ℤ
  upper_bound : ℤ
  start_cumul_to_zero : Bool
deriving DecidableEq

/-- The distance dimension as built by solve_vrp: 30 minutes of slack and an
upper bound of max_route_duration_minutes * 60 under MINIMIZE_DISTANCE,
max_route_duration_minutes * 100 under any other criterion. -/
def distanceDimension (constraints : OptimizationConstraints) : DimensionSpec :=
  let max_distance :=
    if constraints.optimization_criteria = "MINIMIZE_DISTANCE" then
      constraints.max_route_duration_minutes * 60
    else
      constraints.max_route_duration_minutes * 100
  { slack := 30 * 60, upper_bound := max_distance, start_cumul_to_zero := true }

/-- The capacity dimension solve_vrp optionally adds
(vrp_solver.py lines 67-81): per-node demands in grams, zero slack, one
capacity bound per vehicle, cumulative load starting at zero. -/
structure CapacityDimension where
  demands : List ℤ
  slack : ℤ
  vehicle_capacities : List ℤ
  start_cumul_to_zero : Bool
deriving DecidableEq

/-- capacityDimension locations constraints: some dimension exactly when any
location has a positive load (vrp_solver.py line 69), none otherwise. -/
def capacityDimension (locations : List LocationPoint)
    (constraints : OptimizationConstraints) : Option CapacityDimension :=
  let loads := locations.map fun loc => loc.load_kg
  if loads.any fun load => 0 < load then
    some { demands := loads.map fun load => pyInt (load * 100)
           slack := 0
           vehicle_capacities :=
             List.replicate constraints.max_vehicles (pyInt (constraints.vehicle_capacity_kg * 100))
           start_cumul_to_zero := true }
  else
    none

lemma getD_map_range {α : Type} (f : ℕ → α) (n i : ℕ) (hi : i < n) (d : α) :
    (((List.range n).map f).getD i d) = f i := by
  rw [List.getD_eq_getElem?_getD, List.getElem?_map, List.getElem?_range hi]
  rfl

lemma one_le_calculate_travel_time (t : TrafficData) (d : ℚ) :
    1 ≤ calculate_travel_time t d := le_max_left _ _

lemma create_distance_matrix_entry (locations : List LocationPoint)
    (use_traffic : Bool) (trafficAt : ℕ → TrafficData)
    (distKm euclidKm : ℕ → ℕ → ℚ) (i j : ℕ) (d : ℤ)
    (hi : i < locations.length) (hj : j < locations.length) :
    ((create_distance_matrix locations use_traffic trafficAt distKm
        euclidKm).getD i []).getD j d
      = matrixEntry use_traffic trafficAt distKm euclidKm i j := by
  unfold create_distance_matrix
  rw [getD_map_range _ _ _ hi, getD_map_range _ _ _ hj]

/-- What claim C5 asserts of the cost matrix: square, zero diagonal, and
every off-diagonal entry at least 60 seconds in offline mode and at least
1 second in traffic mode (entries are integers by construction: the matrix
lives in lists of ℤ). -/
def CostMatrixSpec (locations : List LocationPoint) (use_traffic : Bool)
    (trafficAt : ℕ → TrafficData) (distKm euclidKm : ℕ → ℕ → ℚ) : Prop :=
  let M := create_distance_matrix locations use_traffic trafficAt distKm euclidKm
  M.length = locations.length ∧
  (∀ row ∈ M, row.length = locations.length) ∧
  (∀ i < locations.length, (M.getD i []).getD i 1 = 0) ∧
  (∀ i < locations.length, ∀ j < locations.length, i ≠ j →
    (use_traffic = false → 60 ≤ (M.getD i []).getD j 0) ∧
    (use_traffic = true → 1 ≤ (M.getD i []).getD j 0))

/-- C5: for every location list of size at least 2, the cost matrix is square
with integer entries, has a zero diagonal, and every off-diagonal entry is at
least 60 in offline mode and at least 1 second in traffic mode. -/
theorem claim_C5_cost_matrix (locations : List LocationPoint)
    (use_traffic : Bool) (trafficAt : ℕ → TrafficData)
    (distKm euclidKm : ℕ → ℕ → ℚ) (_hlen : 2 ≤ locations.length) :
    CostMatrixSpec locations use_traffic trafficAt distKm euclidKm := by
  refine ⟨by simp [create_distance_matrix], ?_, ?_, ?_⟩
  · intro row hrow
    simp only [create_distance_matrix, List.mem_map] at hrow
    obtain ⟨i, _, rfl⟩ := hrow
    simp
  · intro i hi
    rw [create_distance_matrix_entry _ _ _ _ _ _ _ _ hi hi]
    simp [matrixEntry]
  · intro i hi j hj hij
    rw [create_distance_matrix_entry _ _ _ _ _ _ _ _ hi hj]
    unfold matrixEntry
    rw [if_neg hij]
    constructor
    · intro hut
      rw [hut]
      simp only [Bool.false_eq_true, if_false]
      exact le_max_left _ _
    · intro hut
      rw [hut, if_pos rfl]
      have h1 := one_le_calculate_travel_time (trafficAt i) (distKm i j)
      omega

/-- C5 witness: the matrix specification holds at a concrete pair of
locations in offline mode. -/
theorem claim_C5_cost_matrix_witness :
    CostMatrixSpec [⟨none, 0, 0, 0, 0⟩, ⟨none, 1, 1, 10, 0⟩] false
      (fun _ => defaultTrafficData) (fun _ _ => 0) (fun _ _ => 0) :=
  claim_C5_cost_matrix _ _ _ _ _ (by decide)

/-- C6: for every constraint set, the distance/time dimension starts at zero
per vehicle, has slack exactly 1800 seconds, and has upper bound
max_route_duration_minutes * 60 under MINIMIZE_DISTANCE and
max_route_duration_minutes * 100 under every other criterion. -/
theorem claim_C6_distance_dimension (constraints : OptimizationConstraints) :
    (distanceDimension constraints).slack = 1800 ∧
    (distanceDimension constraints).start_cumul_to_zero = true ∧
    (distanceDimension constraints).upper_bound =
      (if constraints.optimization_criteria = "MINIMIZE_DISTANCE" then
        constraints.max_route_duration_minutes * 60
      else
        constraints.max_route_duration_minutes * 100) :=
  ⟨rfl, rfl, rfl⟩

/-- C7: a capacity dimension exists exactly when some location has positive
load; when it does, demands are int(load_kg * 100) per node, each of the
max_vehicles vehicles has capacity int(vehicle_capacity_kg * 100), slack is
zero and the cumulative load starts at zero; with all loads zero there is no
capacity dimension. -/
theorem claim_C7_capacity_dimension (locations : List LocationPoint)
    (constraints : OptimizationConstraints) :
    ((∃ loc ∈ locations, 0 < loc.load_kg) →
      capacityDimension locations constraints =
        some { demands := locations.map fun loc => pyInt (loc.load_kg * 100)
               slack := 0
               vehicle_capacities := List.replicate constraints.max_vehicles
                 (pyInt (constraints.vehicle_capacity_kg * 100))
               start_cumul_to_zero := true }) ∧
    ((∀ loc ∈ locations, ¬ 0 < loc.load_kg) →
      capacityDimension locations constraints = none) := by
  constructor
  · intro h
    obtain ⟨loc, hmem, hpos⟩ := h
    simp only [capacityDimension]
    rw [if_pos]
    · simp [List.map_map]
    · simp only [List.any_eq_true, List.mem_map, decide_eq_true_eq]
      exact ⟨loc.load_kg, ⟨loc, hmem, rfl⟩, hpos⟩
  · intro h
    simp only [capacityDimension]
    rw [if_neg]
    simp only [List.any_eq_true, List.mem_map, decide_eq_true_eq]
    rintro ⟨x, ⟨loc, hmem, rfl⟩, hpos⟩
    exact h loc hmem hpos

/-- One stop record emitted by _extract_solution
(vrp_solver.py lines 168-178). -/
structure StopData where
  stop_sequence : ℕ
  order_id : Option String
  latitude : ℚ
  longitude : ℚ
  service_time_minutes : ℤ
  load_kg : ℚ
  travel_time_from_previous : ℤ
  distance_from_previous : ℚ
  stop_type : String
deriving DecidableEq

instance : Inhabited StopData := ⟨⟨0, none, 0, 0, 0, 0, 0, 0, ""⟩⟩

/-- One vehicle route emitted by _extract_solution
(vrp_solver.py lines 191-198). -/
structure RouteData where
  vehicle_id : ℕ
  route_sequence : ℕ
  total_distance_minutes : ℤ
  total_distance_km : ℚ
  total_load_kg : ℚ
  stops : List StopData
deriving DecidableEq

/-- The summary block of a successful solve (vrp_solver.py lines 205-210). -/
structure VrpSummary where
  total_distance_km : ℚ
  total_time_minutes : ℤ
  vehicles_used : ℕ
  total_stops : ℕ
deriving DecidableEq

/-- The dictionary solve_vrp returns: either an error entry or
success = True with routes and a summary. -/
inductive VrpResult
  | failure (msg : String)
  | success (routes : List RouteData) (summary : VrpSummary)
deriving DecidableEq

/-- The stop dictionary built for one visited node (vrp_solver.py
lines 156-178): pos is len(route) at the time of the append, prev the
previously visited node if any. Python // 60 is floor division. -/
def stopRecord (locations : List LocationPoint) (m : ℕ → ℕ → ℤ)
    (pos : ℕ) (prev : Option ℕ) (node : ℕ) : StopData :=
  let location := locations.getD node default
  let travel_time : ℤ :=
    match prev with
    | none => 0
    | some p => (m p node).fdiv 60
  { stop_sequence := pos
    order_id := location.order_id
    latitude := location.latitude
    longitude := location.longitude
    service_time_minutes := location.service_time_minutes
    load_kg := location.load_kg
    travel_time_from_previous := travel_time
    distance_from_previous := (travel_time : ℚ) * (4/5)
    stop_type := if pos = 0 then "DEPOT" else "DELIVERY" }

/-- The while loop of _extract_solution over the nodes one vehicle visits
(the solver walk, from routing.Start up to but excluding the end sentinel),
carrying the position and the previous node. -/
def buildStopsAux (locations : List LocationPoint) (m : ℕ → ℕ → ℤ) :
    ℕ → Option ℕ → List ℕ → List StopData
  | _, _, [] => []
  | pos, prev, node :: rest =>
    stopRecord locations m pos prev node ::
      buildStopsAux locations m (pos + 1) (some node) rest

/-- The stop list decoded from one vehicle walk. -/
def buildStops (locations : List LocationPoint) (m : ℕ → ℕ → ℤ)
    (walk : List ℕ) : List StopData :=
  buildStopsAux locations m 0 none walk

/-- route_distance: the sum of GetArcCostForVehicle over consecutive visited
nodes (the final leg to the end sentinel is not added, matching the guard at
vrp_solver.py line 185). The arc cost is the registered transit callback,
i.e. the matrix entry. -/
def routeDistanceCost (m : ℕ → ℕ → ℤ) : List ℕ → ℤ
  | a :: b :: rest => m a b + routeDistanceCost m (b :: rest)
  | _ => 0

/-- The per-vehicle loop of _extract_solution (vrp_solver.py lines 147-200):
walks are the per-vehicle node sequences of the solver solution, vid the
vehicle id; a route is kept only when it has stops beyond the depot. -/
def extractRoutes (locations : List LocationPoint) (m : ℕ → ℕ → ℤ) :
    ℕ → List (List ℕ) → List RouteData
  | _, [] => []
  | vid, walk :: rest =>
    let stops := buildStops locations m walk
    if 1 < stops.length then
      let route_distance := routeDistanceCost m walk
      let route_time := route_distance.fdiv 60
      { vehicle_id := vid
        route_sequence := vid
        total_distance_minutes := route_time
        total_distance_km := (route_time : ℚ) * (4/5)
        total_load_kg := (walk.map fun node =>
          (locations.getD node default).load_kg).sum
        stops := stops } :: extractRoutes locations m (vid + 1) rest
    else
      extractRoutes locations m (vid + 1) rest

/-- _extract_solution (vrp_solver.py lines 140-211): the decoded routes and
the aggregated summary. -/
def extract_solution (locations : List LocationPoint) (m : ℕ → ℕ → ℤ)
    (walks : List (List ℕ)) : VrpResult :=
  let routes := extractRoutes locations m 0 walks
  VrpResult.success routes
    { total_distance_km := (routes.map fun r => r.total_distance_km).sum
      total_time_minutes := (routes.map fun r => r.total_distance_minutes).sum
      vehicles_used := routes.length
      total_stops := (routes.map fun r => r.stops.length).sum }

/-- What the solver invocation can come back with: a per-vehicle assignment,
no solution, or an exception raised anywhere inside the try block. -/
inductive SolveOutcome
  | found (walks : List (List ℕ))
  | infeasible
  | raised (msg : String)
deriving DecidableEq

/-- solve_vrp (vrp_solver.py lines 16-103): the guard on fewer than two
locations comes before the try block; inside it, the matrix is built, the
model solved, and any exception converted to an error dictionary. -/
def solve_vrp (locations : List LocationPoint)
    (_constraints : OptimizationConstraints) (use_traffic : Bool)
    (trafficAt : ℕ → TrafficData) (distKm euclidKm : ℕ → ℕ → ℚ)
    (outcome : SolveOutcome) : VrpResult :=
  if locations.length < 2 then
    VrpResult.failure "Need at least 2 locations (depot + delivery)"
  else
    match outcome with
    | SolveOutcome.found walks =>
      extract_solution locations
        (matrixEntry use_traffic trafficAt distKm euclidKm) walks
    | SolveOutcome.infeasible =>
      VrpResult.failure "No solution found for the given constraints"
    | SolveOutcome.raised msg =>
      VrpResult.failure ("Optimization failed: " ++ msg)

lemma buildStopsAux_length (locations : List LocationPoint) (m : ℕ → ℕ → ℤ) :
    ∀ (walk : List ℕ) (pos : ℕ) (prev : Option ℕ),
      (buildStopsAux locations m pos prev walk).length = walk.length := by
  intro walk
  induction walk with
  | nil => intro pos prev; rfl
  | cons node rest ih =>
    intro pos prev
    simp [buildStopsAux, ih]

lemma buildStopsAux_delivery (locations : List LocationPoint) (m : ℕ → ℕ → ℤ) :
    ∀ (walk : List ℕ) (pos : ℕ) (prev : Option ℕ), 1 ≤ pos →
      ∀ s ∈ buildStopsAux locations m pos prev walk,
        s.stop_type = "DELIVERY" := by
  intro walk
  induction walk with
  | nil => intro pos prev _ s hs; simp [buildStopsAux] at hs
  | cons node rest ih =>
    intro pos prev hpos s hs
    simp only [buildStopsAux, List.mem_cons] at hs
    rcases hs with rfl | hs
    · simp only [stopRecord]
      rw [if_neg (by omega)]
    · exact ih (pos + 1) (some node) (by omega) s hs

lemma buildStopsAux_no_pickup (locations : List LocationPoint) (m : ℕ → ℕ → ℤ) :
    ∀ (walk : List ℕ) (pos : ℕ) (prev : Option ℕ),
      ∀ s ∈ buildStopsAux locations m pos prev walk,
        s.stop_type ≠ "PICKUP" := by
  intro walk
  induction walk with
  | nil => intro pos prev s hs; simp [buildStopsAux] at hs
  | cons node rest ih =>
    intro pos prev s hs
    simp only [buildStopsAux, List.mem_cons] at hs
    rcases hs with rfl | hs
    · simp only [stopRecord]
      split <;> decide
    · exact ih (pos + 1) (some node) s hs

lemma mem_extractRoutes (locations : List LocationPoint) (m : ℕ → ℕ → ℤ) :
    ∀ (walks : List (List ℕ)) (vid : ℕ) (r : RouteData),
      r ∈ extractRoutes locations m vid walks →
      ∃ w ∈ walks, r.stops = buildStops locations m w ∧
        1 < (buildStops locations m w).length := by
  intro walks
  induction walks with
  | nil => intro vid r hr; simp [extractRoutes] at hr
  | cons walk rest ih =>
    intro vid r hr
    simp only [extractRoutes] at hr
    by_cases hlen : 1 < (buildStops locations m walk).length
    · rw [if_pos hlen] at hr
      rcases List.mem_cons.mp hr with rfl | hr
      · exact ⟨walk, List.mem_cons_self _ _, rfl, hlen⟩
      · obtain ⟨w, hw, hst⟩ := ih (vid + 1) r hr
        exact ⟨w, List.mem_cons_of_mem _ hw, hst⟩
    · rw [if_neg hlen] at hr
      obtain ⟨w, hw, hst⟩ := ih (vid + 1) r hr
      exact ⟨w, List.mem_cons_of_mem _ hw, hst⟩

/-- What claim C9 asserts of every decoded route: more than one stop, the
stop at sequence 0 is the depot (location index 0) with stop_type DEPOT and
zero travel time and distance from previous, every later stop has stop_type
DELIVERY, and no stop ever has stop_type PICKUP. -/
def DecoderInvariant (locations : List LocationPoint) (m : ℕ → ℕ → ℤ)
    (walks : List (List ℕ)) : Prop :=
  ∀ r ∈ extractRoutes locations m 0 walks,
    1 < r.stops.length ∧
    (r.stops.headD default).stop_sequence = 0 ∧
    (r.stops.headD default).stop_type = "DEPOT" ∧
    (r.stops.headD default).travel_time_from_previous = 0 ∧
    (r.stops.headD default).distance_from_previous = 0 ∧
    (r.stops.headD default).latitude = (locations.getD 0 default).latitude ∧
    (r.stops.headD default).longitude = (locations.getD 0 default).longitude ∧
    (∀ s ∈ r.stops.tail, s.stop_type = "DELIVERY") ∧
    (∀ s ∈ r.stops, s.stop_type ≠ "PICKUP")

/-- C9: in every decoded solution (each solver walk starting at the depot,
index 0, as routing.Start guarantees), every emitted route has more than one
stop, its first stop is the depot with stop_type DEPOT and zero travel time
and distance, every stop at sequence 1 and beyond has stop_type DELIVERY,
and the decoder never emits stop_type PICKUP. -/
theorem claim_C9_decoder_invariants (locations : List LocationPoint)
    (m : ℕ → ℕ → ℤ) (walks : List (List ℕ))
    (hdepot : ∀ w ∈ walks, w.headD 0 = 0) :
    DecoderInvariant locations m walks := by
  intro r hr
  obtain ⟨w, hw, hstops, hlen⟩ := mem_extractRoutes locations m walks 0 r hr
  have hwlen : 1 < w.length := by
    rw [buildStops, buildStopsAux_length] at hlen
    exact hlen
  match w, hwlen, hw, hstops with
  | node :: rest, hwlen, hw, hstops =>
    have hnode : node = 0 := by
      have := hdepot _ hw
      simpa using this
    subst hnode
    have hlen0 : 1 < r.stops.length := hstops ▸ hlen
    simp only [buildStops, buildStopsAux] at hstops
    refine ⟨hlen0, ?_, ?_, ?_, ?_, ?_, ?_, ?_, ?_⟩
    · rw [hstops]; rfl
    · rw [hstops]; rfl
    · rw [hstops]; rfl
    · rw [hstops]
      simp [stopRecord]
    · rw [hstops]; rfl
    · rw [hstops]; rfl
    · intro s hs
      rw [hstops] at hs
      exact buildStopsAux_delivery locations m rest 1 (some 0) (by omega) s hs
    · intro s hs
      rw [hstops] at hs
      rcases List.mem_cons.mp hs with rfl | hs2
      · simp [stopRecord]
      · exact buildStopsAux_no_pickup locations m rest 1 (some 0) s hs2

/-- C9 witness: the invariant at a concrete 3-location instance whose single
vehicle visits the two waypoints in reverse order. -/
theorem claim_C9_decoder_invariants_witness :
    DecoderInvariant
      [⟨none, 0, 0, 0, 0⟩, ⟨none, 1, 1, 10, 0⟩, ⟨none, 2, 2, 10, 0⟩]
      (fun _ _ => 60) [[0, 2, 1]] :=
  claim_C9_decoder_invariants _ _ _ (by decide)

/-- C10: solve_vrp is total at its interface: it returns an error dictionary
for fewer than 2 locations no matter what the solver or the network would
have done, and otherwise returns either success with routes and a summary or
an error dictionary — also when the solver finds nothing or an exception is
raised inside the try block. -/
theorem claim_C10_solve_vrp_total (locations : List LocationPoint)
    (constraints : OptimizationConstraints) (use_traffic : Bool)
    (trafficAt : ℕ → TrafficData) (distKm euclidKm : ℕ → ℕ → ℚ)
    (outcome : SolveOutcome) :
    (locations.length < 2 →
      solve_vrp locations constraints use_traffic trafficAt distKm euclidKm
          outcome =
        VrpResult.failure "Need at least 2 locations (depot + delivery)") ∧
    ((∃ routes summary,
        solve_vrp locations constraints use_traffic trafficAt distKm euclidKm
          outcome = VrpResult.success routes summary) ∨
      (∃ msg,
        solve_vrp locations constraints use_traffic trafficAt distKm euclidKm
          outcome = VrpResult.failure msg)) := by
  constructor
  · intro h
    unfold solve_vrp
    rw [if_pos h]
  · unfold solve_vrp
    by_cases h : locations.length < 2
    · rw [if_pos h]
      right
      exact ⟨_, rfl⟩
    · rw [if_neg h]
      cases outcome with
      | found walks => left; exact ⟨_, _, rfl⟩
      | infeasible => right; exact ⟨_, rfl⟩
      | raised msg => right; exact ⟨_, rfl⟩

/-- A coordinate point of the synchronous API
(schemas/coordinate_optimization.py), with the pydantic defaults for the
optional metadata. -/
structure CoordinatePoint where
  lat : ℚ
  lng : ℚ
  name : Option String := none
  service_time_minutes : ℤ := 5
  load_kg : ℚ := 0
deriving DecidableEq

instance : Inhabited CoordinatePoint := ⟨⟨0, 0, none, 5, 0⟩⟩

/-- The coordinate optimization request (end and departure_time omitted:
the service never reads them). -/
structure CoordinateOptimizationRequest where
  start : CoordinatePoint
  waypoints : List CoordinatePoint
  use_traffic : Bool := true
  optimize_order : Bool := true
  max_vehicles : ℕ := 1
  vehicle_capacity_kg : ℚ := 500
deriving DecidableEq

/-- A segment of the returned route. -/
structure RouteSegment where
  from_location : CoordinatePoint
  to_location : CoordinatePoint
  distance_km : ℚ
  duration_minutes : ℤ
  traffic_delay_minutes : ℤ
  congestion_level : String
deriving DecidableEq

/-- The coordinate optimization response; the summary dict is flattened into
its four fields (vehicles_used, total_stops, optimization_applied,
traffic_aware). -/
structure CoordinateOptimizationResponse where
  success : Bool
  total_distance_km : ℚ
  total_duration_minutes : ℤ
  total_traffic_delay_minutes : ℤ
  optimized_sequence : List ℕ
  route_segments : List RouteSegment
  waypoints_in_order : List CoordinatePoint
  vehicles_used : ℕ
  total_stops : ℕ
  optimization_applied : Bool
  traffic_aware : Bool
deriving DecidableEq

instance : Inhabited CoordinateOptimizationResponse :=
  ⟨⟨false, 0, 0, 0, [], [], [], 0, 0, false, false⟩⟩

/-- _estimate_traffic_delay (coordinate_optimizer.py lines 238-248): the
delay factor dictionary with its .get default of 0.0, truncated to int. -/
def estimate_traffic_delay (travel_time : ℤ) (congestion_level : String) : ℤ :=
  let factor : ℚ :=
    if congestion_level = "LOW" then 0
    else if congestion_level = "MODERATE" then 1/5
    else if congestion_level = "HIGH" then 1/2
    else if congestion_level = "SEVERE" then 1
    else 0
  pyInt ((travel_time : ℤ) * factor)

/-- Python's round(x, 2): banker's rounding to two decimal places. -/
def pyRound2 (q : ℚ) : ℚ :=
  let y := q * 100
  let fl := ⌊y⌋
  let frac := y - fl
  let r : ℤ :=
    if frac < 1/2 then fl
    else if 1/2 < frac then fl + 1
    else if fl % 2 = 0 then fl else fl + 1
  (r : ℚ) / 100

/-- Accumulators of the stop loop in _build_response_from_vrp. -/
structure RespAcc where
  optimized_sequence : List ℕ
  waypoints_in_order : List CoordinatePoint
  route_segments : List RouteSegment
  total_traffic_delay : ℤ
deriving DecidableEq

/-- The loop over enumerate(stops) of _build_response_from_vrp
(coordinate_optimizer.py lines 110-152): i = 0 (the depot) is skipped; for
every later stop the waypoint index is computed as stop_sequence - 1 and
appended when in range, and a segment is built from the previous stop using
a fresh get_traffic_flow call (oracle tf) at the previous stop's
coordinates. head-first recursion preserves the iteration order. -/
def respLoop (tf : ℚ → ℚ → TrafficData) (req : CoordinateOptimizationRequest)
    (stops : List StopData) : ℕ → List StopData → RespAcc
  | _, [] => ⟨[], [], [], 0⟩
  | i, stop :: rest =>
    let tailAcc := respLoop tf req stops (i + 1) rest
    if i = 0 then tailAcc
    else
      let idx : ℤ := (stop.stop_sequence : ℤ) - 1
      let seqPart : List ℕ × List CoordinatePoint :=
        if 0 ≤ idx ∧ idx < (req.waypoints.length : ℤ) then
          ([idx.toNat], [req.waypoints.getD idx.toNat default])
        else ([], [])
      let from_stop := stops.getD (i - 1) default
      let traffic_data := tf from_stop.latitude from_stop.longitude
      let congestion_level := traffic_data.congestion_level
      let travel_time := stop.travel_time_from_previous
      let traffic_delay := estimate_traffic_delay travel_time congestion_level
      let seg : RouteSegment :=
        { from_location := { lat := from_stop.latitude, lng := from_stop.longitude }
          to_location := { lat := stop.latitude, lng := stop.longitude }
          distance_km := stop.distance_from_previous
          duration_minutes := travel_time
          traffic_delay_minutes := traffic_delay
          congestion_level := congestion_level }
      ⟨seqPart.1 ++ tailAcc.optimized_sequence,
       seqPart.2 ++ tailAcc.waypoints_in_order,
       seg :: tailAcc.route_segments,
       traffic_delay + tailAcc.total_traffic_delay⟩

/-- _build_response_from_vrp (coordinate_optimizer.py lines 88-168). -/
def build_response_from_vrp (tf : ℚ → ℚ → TrafficData)
    (solution_routes : List RouteData)
    (request : CoordinateOptimizationRequest) :
    Except String CoordinateOptimizationResponse :=
  match solution_routes.head? with
  | none => Except.error "No route generated"
  | some route =>
    let acc := respLoop tf request route.stops 0 route.stops
    Except.ok
      { success := true
        total_distance_km := route.total_distance_km
        total_duration_minutes := route.total_distance_minutes
        total_traffic_delay_minutes := acc.total_traffic_delay
        optimized_sequence := acc.optimized_sequence
        route_segments := acc.route_segments
        waypoints_in_order := acc.waypoints_in_order
        vehicles_used := 1
        total_stops := acc.waypoints_in_order.length
        optimization_applied := true
        traffic_aware := request.use_traffic }

/-- _build_sequential_route (coordinate_optimizer.py lines 170-236): one
segment per consecutive pair of all_points = [start] + waypoints. Per leg i,
tfTravel i is the traffic data the get_traffic_flow call inside
calculate_travel_time returns, tfSeg i the one the explicit
get_traffic_flow call returns, legDist i the Haversine distance of the leg. -/
def build_sequential_route (request : CoordinateOptimizationRequest)
    (tfTravel tfSeg : ℕ → TrafficData) (legDist : ℕ → ℚ) :
    CoordinateOptimizationResponse :=
  let all_points := request.start :: request.waypoints
  let legs := (List.range (all_points.length - 1)).map fun i =>
    let from_point := all_points.getD i default
    let to_point := all_points.getD (i + 1) default
    let travel_time := calculate_travel_time (tfTravel i) (legDist i)
    let congestion_level := (tfSeg i).congestion_level
    let distance := legDist i
    let traffic_delay := estimate_traffic_delay travel_time congestion_level
    ({ from_location := from_point
       to_location := to_point
       distance_km := distance
       duration_minutes := travel_time
       traffic_delay_minutes := traffic_delay
       congestion_level := congestion_level } : RouteSegment)
  { success := true
    total_distance_km := pyRound2 ((legs.map fun s => s.distance_km).sum)
    total_duration_minutes := (legs.map fun s => s.duration_minutes).sum
    total_traffic_delay_minutes := (legs.map fun s => s.traffic_delay_minutes).sum
    optimized_sequence := List.range request.waypoints.length
    route_segments := legs
    waypoints_in_order := request.waypoints
    vehicles_used := 1
    total_stops := request.waypoints.length
    optimization_applied := false
    traffic_aware := request.use_traffic }

/-- _convert_to_location_points (coordinate_optimizer.py lines 63-86): the
start point becomes the depot with zero service time and load. -/
def convert_to_location_points (request : CoordinateOptimizationRequest) :
    List LocationPoint :=
  { order_id := none, latitude := request.start.lat,
    longitude := request.start.lng, service_time_minutes := 0,
    load_kg := 0 } ::
  request.waypoints.map fun wp =>
    { order_id := none, latitude := wp.lat, longitude := wp.lng,
      service_time_minutes := wp.service_time_minutes, load_kg := wp.load_kg }

/-- The constraints optimize_route builds (coordinate_optimizer.py
lines 40-44); the remaining fields keep their pydantic defaults. -/
def coordinateConstraints (request : CoordinateOptimizationRequest) :
    OptimizationConstraints :=
  { max_vehicles := request.max_vehicles
    vehicle_capacity_kg := request.vehicle_capacity_kg
    optimization_criteria :=
      if request.use_traffic then "MINIMIZE_TIME" else "MINIMIZE_DISTANCE" }

/-- optimize_route (coordinate_optimizer.py lines 25-61): the VRP path when
optimize_order is set and there are at least 2 waypoints, the sequential
path otherwise; a failed solve is re-raised with the solver's message. -/
def optimize_route (request : CoordinateOptimizationRequest)
    (tfFlow : ℚ → ℚ → TrafficData) (trafficAt : ℕ → TrafficData)
    (distKm euclidKm : ℕ → ℕ → ℚ) (outcome : SolveOutcome)
    (tfTravel tfSeg : ℕ → TrafficData) (legDist : ℕ → ℚ) :
    Except String CoordinateOptimizationResponse :=
  if request.optimize_order = true ∧ 1 < request.waypoints.length then
    match solve_vrp (convert_to_location_points request)
        (coordinateConstraints request) request.use_traffic trafficAt distKm
        euclidKm outcome with
    | VrpResult.failure msg => Except.error msg
    | VrpResult.success routes _ => build_response_from_vrp tfFlow routes request
  else
    Except.ok (build_sequential_route request tfTravel tfSeg legDist)

/-- The two waypoints of the C1 failing input. -/
def c1_wp0 : CoordinatePoint := ⟨1, 1, none, 5, 0⟩

def c1_wp1 : CoordinatePoint := ⟨2, 2, none, 5, 0⟩

/-- The C1 failing request: start (0,0), two waypoints, optimize_order on. -/
def c1_request : CoordinateOptimizationRequest :=
  { start := ⟨0, 0, none, 0, 0⟩
    waypoints := [c1_wp0, c1_wp1]
    use_traffic := true
    optimize_order := true
    max_vehicles := 1
    vehicle_capacity_kg := 500 }

/-- The solver's walk for C1: depot, then node 2 (waypoint index 1), then
node 1 (waypoint index 0) — the solver reverses the waypoints. -/
def c1_walks : List (List ℕ) := [[0, 2, 1]]

/-- The full pipeline at the C1 failing input, with constant traffic and
distance oracles. -/
def c1_result : Except String CoordinateOptimizationResponse :=
  optimize_route c1_request (fun _ _ => defaultTrafficData)
    (fun _ => defaultTrafficData) (fun _ _ => 10) (fun _ _ => 10)
    (SolveOutcome.found c1_walks) (fun _ => defaultTrafficData)
    (fun _ => defaultTrafficData) (fun _ => 10)

def c1_response : CoordinateOptimizationResponse :=
  match c1_result with
  | Except.ok r => r
  | Except.error _ => default

/-- C1: _build_response_from_vrp computes waypoint_idx = stop_sequence - 1,
but stop_sequence is the POSITION of the stop in the optimized route, not
the node index, so optimized_sequence is always the identity permutation.
At the failing input the solver visits the original waypoints in order
[1, 0], yet the response reports optimized_sequence [0, 1] and returns
waypoints_in_order in the original request order — the remap back to
original waypoint indices that the code's own comment promises never
happens. -/
theorem claim_C1_remap_is_identity :
    c1_response.optimized_sequence = [0, 1] ∧
    c1_response.waypoints_in_order = [c1_wp0, c1_wp1] ∧
    (c1_walks.headD []).tail.map (fun node => node - 1) = [1, 0] ∧
    ([0, 1] : List ℕ) ≠ [1, 0] :=
  ⟨rfl, rfl, rfl, by decide⟩

instance : Inhabited RouteSegment := ⟨⟨default, default, 0, 0, 0, ""⟩⟩

/-- What claim C8 asserts of the sequential (non-optimizing) path: segments
strictly in input order, one per consecutive pair of input points, the
identity optimized_sequence, the input waypoints returned unchanged,
optimization_applied false, and per-segment traffic delay equal to
int(duration * factor) with factor LOW 0, MODERATE 0.2, HIGH 0.5,
SEVERE 1.0 for the segment's congestion level. -/
def SequentialRouteSpec (request : CoordinateOptimizationRequest)
    (tfTravel tfSeg : ℕ → TrafficData) (legDist : ℕ → ℚ) : Prop :=
  let resp := build_sequential_route request tfTravel tfSeg legDist
  resp.optimized_sequence = List.range request.waypoints.length ∧
  resp.waypoints_in_order = request.waypoints ∧
  resp.optimization_applied = false ∧
  resp.route_segments.length = request.waypoints.length ∧
  (∀ k < request.waypoints.length,
    (resp.route_segments.getD k default).from_location =
      (request.start :: request.waypoints).getD k default ∧
    (resp.route_segments.getD k default).to_location =
      (request.start :: request.waypoints).getD (k + 1) default ∧
    ((resp.route_segments.getD k default).congestion_level = "LOW" →
      (resp.route_segments.getD k default).traffic_delay_minutes = 0) ∧
    ((resp.route_segments.getD k default).congestion_level = "MODERATE" →
      (resp.route_segments.getD k default).traffic_delay_minutes =
        pyInt (((resp.route_segments.getD k default).duration_minutes : ℚ) * (1/5))) ∧
    ((resp.route_segments.getD k default).congestion_level = "HIGH" →
      (resp.route_segments.getD k default).traffic_delay_minutes =
        pyInt (((resp.route_segments.getD k default).duration_minutes : ℚ) * (1/2))) ∧
    ((resp.route_segments.getD k default).congestion_level = "SEVERE" →
      (resp.route_segments.getD k default).traffic_delay_minutes =
        pyInt (((resp.route_segments.getD k default).duration_minutes : ℚ) * 1)))

/-- C8: with optimize_order false or fewer than 2 waypoints, optimize_route
takes the sequential path and the response satisfies the sequential route
specification: input-order segments, identity sequence, unchanged waypoints,
optimization_applied false, and the per-segment congestion delay table. -/
theorem claim_C8_sequential_route (request : CoordinateOptimizationRequest)
    (tfFlow : ℚ → ℚ → TrafficData) (trafficAt : ℕ → TrafficData)
    (distKm euclidKm : ℕ → ℕ → ℚ) (outcome : SolveOutcome)
    (tfTravel tfSeg : ℕ → TrafficData) (legDist : ℕ → ℚ)
    (h : ¬(request.optimize_order = true ∧ 1 < request.waypoints.length)) :
    optimize_route request tfFlow trafficAt distKm euclidKm outcome tfTravel
        tfSeg legDist =
      Except.ok (build_sequential_route request tfTravel tfSeg legDist) ∧
    SequentialRouteSpec request tfTravel tfSeg legDist := by
  constructor
  · unfold optimize_route
    rw [if_neg h]
  · have hn : (request.start :: request.waypoints).length - 1 =
        request.waypoints.length := by simp
    refine ⟨rfl, rfl, rfl, ?_, ?_⟩
    · simp [build_sequential_route]
    · intro k hk
      have hk2 : k < (request.start :: request.waypoints).length - 1 := by
        rw [hn]; exact hk
      simp only [build_sequential_route]
      rw [getD_map_range _ _ _ hk2]
      refine ⟨rfl, rfl, ?_, ?_, ?_, ?_⟩ <;>
        · intro hlv
          simp only at hlv
          simp +decide only [estimate_traffic_delay, hlv]
          norm_num [pyInt]

/-- The C8 witness request: two waypoints, optimize_order disabled. -/
def c8_request : CoordinateOptimizationRequest :=
  { start := ⟨0, 0, none, 0, 0⟩
    waypoints := [⟨1, 1, none, 5, 0⟩, ⟨2, 2, none, 5, 0⟩]
    use_traffic := true
    optimize_order := false
    max_vehicles := 1
    vehicle_capacity_kg := 500 }

/-- C8 witness: the sequential-path claim at the concrete request. -/
theorem claim_C8_sequential_route_witness :
    optimize_route c8_request (fun _ _ => defaultTrafficData)
        (fun _ => defaultTrafficData) (fun _ _ => 10) (fun _ _ => 10)
        SolveOutcome.infeasible (fun _ => defaultTrafficData)
        (fun _ => defaultTrafficData) (fun _ => 10) =
      Except.ok (build_sequential_route c8_request (fun _ => defaultTrafficData)
        (fun _ => defaultTrafficData) (fun _ => 10)) ∧
    SequentialRouteSpec c8_request (fun _ => defaultTrafficData)
      (fun _ => defaultTrafficData) (fun _ => 10) :=
  claim_C8_sequential_route _ _ _ _ _ _ _ _ _ (by decide)

/-- The batch job status enum (models/optimization.py, routes/optimizer.py). -/
inductive JobStatus
  | pending | inProgress | completed | failed
deriving DecidableEq

/-- The job row fields process_optimization touches. -/
structure JobRecord where
  job_status : JobStatus
  total_distance_km : Option ℚ
  total_estimated_time_minutes : Option ℤ
  computation_time_seconds : Option ℤ
  error_message : Option String
  completed_at : Option ℤ
deriving DecidableEq

/-- optimize_routes creates the job row (routes/optimizer.py lines 48-60):
status PENDING, no totals, no error message, no completion timestamp. -/
def createJob : JobRecord :=
  ⟨JobStatus.pending, none, none, none, none, none⟩

/-- How the try body of process_optimization can end: the solver returned
success, the solver returned an error dictionary, or an exception was raised
anywhere inside the try body (including a failed final commit) and reached
the except handler. -/
inductive ProcessOutcome
  | solverSuccess (routes : List RouteData)
  | solverError (msg : String)
  | raised (msg : String)
deriving DecidableEq

/-- process_optimization (routes/optimizer.py lines 218-333) as the sequence
of job states committed to the database once the background task has picked
the job up: first IN_PROGRESS (line 229-230), then exactly one terminal
commit — COMPLETED with totals and timestamps on solver success (lines
310-320), FAILED with the solver's message (lines 315-320), or FAILED with
the exception text from the handler (lines 328-333, which does not set
computation_time_seconds). -/
def process_optimization (job : JobRecord) (now elapsed : ℤ)
    (outcome : ProcessOutcome) : List JobRecord :=
  let j1 : JobRecord := { job with job_status := JobStatus.inProgress }
  match outcome with
  | ProcessOutcome.solverSuccess routes =>
    let total_distance := (routes.map fun r => r.total_distance_km).sum
    let total_time := (routes.map fun r => r.total_distance_minutes).sum
    [j1,
      { j1 with
        job_status := JobStatus.completed
        total_distance_km := some total_distance
        total_estimated_time_minutes := some total_time
        completed_at := some now
        computation_time_seconds := some elapsed }]
  | ProcessOutcome.solverError msg =>
    [j1,
      { j1 with
        job_status := JobStatus.failed
        error_message := some msg
        completed_at := some now
        computation_time_seconds := some elapsed }]
  | ProcessOutcome.raised msg =>
    [j1,
      { j1 with
        job_status := JobStatus.failed
        error_message := some msg
        completed_at := some now }]

/-- The committed states a job passes through over its whole lifecycle:
creation, then background processing. -/
def jobTrace (now elapsed : ℤ) (outcome : ProcessOutcome) : List JobRecord :=
  createJob :: process_optimization createJob now elapsed outcome

def statusTrace (now elapsed : ℤ) (outcome : ProcessOutcome) : List JobStatus :=
  (jobTrace now elapsed outcome).map fun j => j.job_status

/-- C4: every job is created PENDING, moves to IN_PROGRESS when background
processing starts, then moves exactly once to exactly one terminal state
(COMPLETED or FAILED) and never leaves it — the status trace is exactly
[PENDING, IN_PROGRESS, terminal]; every COMPLETED state has non-null
total_distance_km and completed_at, and every FAILED state (solver
infeasibility or caught exception) has a non-null error_message. -/
theorem claim_C4_job_lifecycle (now elapsed : ℤ) (outcome : ProcessOutcome) :
    (statusTrace now elapsed outcome =
        [JobStatus.pending, JobStatus.inProgress, JobStatus.completed] ∨
      statusTrace now elapsed outcome =
        [JobStatus.pending, JobStatus.inProgress, JobStatus.failed]) ∧
    (∀ j ∈ jobTrace now elapsed outcome, j.job_status = JobStatus.completed →
      j.total_distance_km.isSome = true ∧ j.completed_at.isSome = true) ∧
    (∀ j ∈ jobTrace now elapsed outcome, j.job_status = JobStatus.failed →
      j.error_message.isSome = true) := by
  cases outcome <;>
    simp [jobTrace, statusTrace, process_optimization, createJob]

end RouteOptimizer
